import Mathlib

/-!
Verification development for the enterprise-approval chatbot backend
(FastAPI service: query planner, relational tool registry and executor,
semantic retrieval, streamed answer synthesis, callback delivery).

The Python sources under app/services are embedded shallowly:

* scalar values flowing through task arguments and database rows become
  the inductive type `Val` (Python truthiness is modelled explicitly);
* rows (Python dicts) become ordered association lists `Row`;
* the SQL queries issued by the registry tools become list filters and
  projections over an abstract `Database`;
* external collaborators (the OpenAI planner and synthesizer models, the
  Weaviate search, the SQL engine, the callback receiver) are oracles:
  their single interaction with one request is an explicit argument;
* generators become the list of yielded chunks plus an optional
  exception that terminates them;
* Python string helpers (split / strip / join / lower) are re-implemented
  over `List Char` with structural recursion so that every definition
  evaluates by kernel reduction.
-/

set_option autoImplicit false

namespace MlpApproval

/-- Scalar values carried in planner task arguments and database cells,
mirroring the JSON scalars Python passes around (str, int, bool, None). -/
inductive Val where
  | s (v : String)
  | i (v : Int)
  | b (v : Bool)
  | null
  deriving DecidableEq

/-- Python truthiness of a scalar: empty string, 0, False and None are falsy. -/
def Val.truthy : Val → Bool
  | .s v => v ≠ ""
  | .i n => n ≠ 0
  | .b v => v
  | .null => false

/-- Python str() rendering of a scalar, as used when a value is interpolated
into formatted output. -/
def Val.pyStr : Val → String
  | .s v => v
  | .i n => toString n
  | .b true => "True"
  | .b false => "False"
  | .null => "None"

/-- A Python dict with string keys, as an ordered association list
(insertion order preserved, first binding wins on lookup). -/
abbrev Row := List (String × Val)

/-- Python dict.setdefault: insert the binding only when the key is absent
(new keys go to the end, matching dict insertion order). -/
def setdefault (r : Row) (k : String) (v : Val) : Row :=
  match r.lookup k with
  | some _ => r
  | none => r ++ [(k, v)]

/-- Cell access: the value stored under a column, NULL when absent. -/
def cellV (r : Row) (k : String) : Val :=
  (r.lookup k).getD .null

/-- SQL equality between two cell values: comparisons involving NULL are
false; distinct runtime types never compare equal (ids and text are bound
as strings on both sides in this service). -/
def sqlEq (a b : Val) : Bool :=
  match a, b with
  | .null, _ => false
  | _, .null => false
  | a, b => a == b

/-- Column filter: the row's cell under the key equals the bound value. -/
def cellEq (r : Row) (k : String) (v : Val) : Bool :=
  sqlEq (cellV r k) v

/-- Lexicographic order on character lists by code point, the order Python
and the database apply to the ISO-formatted date strings of this schema. -/
def charListLe : List Char → List Char → Bool
  | [], _ => true
  | _ :: _, [] => false
  | a :: as, b :: bs =>
    if a = b then charListLe as bs else decide (a.toNat < b.toNat)

/-- SQL ordering between two cell values (used by date-window filters and
ORDER BY); comparisons involving NULL or mixed types are false. -/
def Val.leb : Val → Val → Bool
  | .s x, .s y => charListLe x.data y.data
  | .i x, .i y => decide (x ≤ y)
  | _, _ => false

/-- Boolean check that one character list is a prefix of another
(kernel-reducible replacement for the library prefix test). -/
def takesPre : List Char → List Char → Bool
  | [], _ => true
  | _ :: _, [] => false
  | a :: as, b :: bs => a == b && takesPre as bs

/-- Membership of one character list inside another, modelling a SQL
LIKE match with wildcards on both sides. -/
def containsSub (pat : List Char) : List Char → Bool
  | [] => takesPre pat []
  | c :: cs => takesPre pat (c :: cs) || containsSub pat cs

/-- SQL LIKE with a percent wildcard on each side: the pattern text occurs
inside the cell text; NULL cells and non-text operands never match. -/
def likeContains (cell : Val) (pat : String) : Bool :=
  match cell with
  | .s c => containsSub pat.data c.data
  | _ => false

/-- Python sep.join(xs): concatenate with the separator between elements. -/
def joinSep (sep : String) : List String → String
  | [] => ""
  | x :: xs => xs.foldl (fun acc y => acc ++ sep ++ y) x

/-! ### The row-limit clause (agent_tools._limit_clause)

The source computes lim = limit or default and appends
" LIMIT {min(lim, default)}" with default = 50 at every call site.
Python truthiness makes both a missing limit and a requested limit of 0
fall back to the default. -/

/-- Python limit or default for an optional integer argument. -/
def limitOr (limit : Option Int) (default : Int) : Int :=
  match limit with
  | some n => if n ≠ 0 then n else default
  | none => default

/-- The integer rendered into the LIMIT clause: min(lim, default). -/
def limitClauseVal (limit : Option Int) (default : Int) : Int :=
  min (limitOr limit default) default

/-- The appended SQL text of agent_tools._limit_clause. -/
def limit_clause (limit : Option Int) (default : Int) : String :=
  " LIMIT " ++ toString (limitClauseVal limit default)

/-- Effect of the appended LIMIT clause on a result set: a negative bound is
a SQL syntax error (the tool call raises), otherwise the first n rows are
kept. The default ceiling is 50 as at every call site. -/
def applyLimit (limit : Option Int) (rows : List Row) : Except String (List Row) :=
  let v := limitClauseVal limit 50
  if v < 0 then .error "SQL syntax error near LIMIT"
  else .ok (rows.take v.toNat)

/-! ### Row formatting (agent_tools.format_rows) -/

/-- One pipe-delimited data line: str(r.get(h, "")) for each header. -/
def dataLine (headers : List String) (r : Row) : String :=
  joinSep " | " (headers.map fun h =>
    match r.lookup h with
    | some v => v.pyStr
    | none => "")

/-- The lines produced by agent_tools.format_rows before joining:
header from the key set of the first record, at most maxRows data lines,
then the elision marker when rows were truncated.  Empty input gives no
lines.  (The source indexes sample[0]; as at its call sites maxRows is
at least 1, the first sampled record is the first record.) -/
def format_rows_lines (rows : List Row) (maxRows : Nat) : List String :=
  match rows with
  | [] => []
  | first :: _ =>
    let headers := first.map Prod.fst
    let lines := joinSep " | " headers :: (rows.take maxRows).map (dataLine headers)
    if maxRows < rows.length then
      lines ++ ["...(" ++ toString (rows.length - maxRows) ++ " more)"]
    else lines

/-- agent_tools.format_rows: the joined text ("" on empty input). -/
def format_rows (rows : List Row) (maxRows : Nat) : String :=
  match rows with
  | [] => ""
  | _ => joinSep "\n" (format_rows_lines rows maxRows)

/-! ### The relational store and the tool registry (agent_tools.py)

Each tool issues one parameterized SELECT over whitelisted tables; the
queries become filters, joins and projections over an abstract snapshot of
those tables.  Table rows carry their full column set (including the
tenant columns of this multi-tenant schema); a SELECT projects the listed
columns in order. -/

/-- Snapshot of the whitelisted tables of the relational store. -/
structure Database where
  todo_list : List Row
  mail : List Row
  attendance : List Row
  meeting : List Row
  meeting_emp : List Row
  meeting_room_reservation : List Row
  meeting_room : List Row
  corporate_car_reservation : List Row
  corporate_car : List Row
  shared_equipment_reservation : List Row
  shared_equipment : List Row
  employee : List Row
  board : List Row
  approval_line : List Row

/-- SQL projection: keep the selected columns, in SELECT order. -/
def selectCols (cols : List String) (r : Row) : Row :=
  cols.map fun c => (c, cellV r c)

/-- Optional lower-bound date filter: applied only when the bound is truthy
(the tools skip the condition entirely for None). -/
def geIfGiven (lo cell : Val) : Bool :=
  if lo.truthy then Val.leb lo cell else true

/-- Optional upper-bound date filter, symmetric to geIfGiven. -/
def leIfGiven (hi cell : Val) : Bool :=
  if hi.truthy then Val.leb cell hi else true

/-- ORDER BY key DESC over result rows. -/
def sortDescBy (k : String) (rows : List Row) : List Row :=
  rows.mergeSort fun r1 r2 => Val.leb (cellV r2 k) (cellV r1 k)

/-- agent_tools.get_my_todos: todo_list rows of the company and employee,
optionally filtered by completion status, capped by the limit clause. -/
def get_my_todos (db : Database) (emp_id com_id status : Val) (limit : Option Int) :
    Except String (List Row) :=
  let matched := db.todo_list.filter fun r =>
    cellEq r "com_id" com_id && cellEq r "emp_id" emp_id &&
      (if status.truthy then cellEq r "is_done" status else true)
  (applyLimit limit matched).map
    (List.map (selectCols ["todo_no", "title", "is_done", "created_at", "updated_at"]))

/-- agent_tools.get_my_mails: the query filters only on sender_id = emp_id;
the com_id and unread_only parameters are accepted but never used in the
statement, so no company filter is applied. -/
def get_my_mails (db : Database) (emp_id com_id unread_only : Val) (limit : Option Int) :
    Except String (List Row) :=
  let matched := db.mail.filter fun r => cellEq r "sender_id" emp_id
  (applyLimit limit matched).map
    (List.map (selectCols ["mail_no", "title", "created_at", "sender_id"]))

/-- agent_tools.get_my_attendance: attendance rows of the company and
employee within the optional day window; the clause is always
built from a None limit (ceiling 50).  The second window bound is the
Python parameter named end. -/
def get_my_attendance (db : Database) (emp_id com_id start stop : Val) :
    Except String (List Row) :=
  let matched := db.attendance.filter fun r =>
    cellEq r "com_id" com_id && cellEq r "emp_id" emp_id &&
      geIfGiven start (cellV r "day") && leIfGiven stop (cellV r "day")
  (applyLimit none matched).map (List.map (selectCols ["day", "type", "created_at"]))

/-- agent_tools.get_meetings_for_me: meeting JOIN meeting_emp on meet_no,
filtered by the meeting's company, the joined employee and the optional
started_at window; columns are selected from the meeting side. -/
def get_meetings_for_me (db : Database) (emp_id com_id start stop : Val) :
    Except String (List Row) :=
  let joined := db.meeting.flatMap fun m =>
    (db.meeting_emp.filter fun me => sqlEq (cellV me "meet_no") (cellV m "meet_no")).map
      fun me => (m, me)
  let matched := joined.filter fun p =>
    cellEq p.1 "com_id" com_id && cellEq p.2 "emp_id" emp_id &&
      geIfGiven start (cellV p.1 "started_at") && leIfGiven stop (cellV p.1 "started_at")
  applyLimit none (matched.map fun p => selectCols ["meet_no", "title", "started_at", "status"] p.1)

/-- Output row of a reservation query: reservation columns plus the
LEFT-JOINed display name (NULL when no name row matches). -/
def resvRow (joinKey nameCol : String) (mr : Row) (nm : Val) : Row :=
  [(joinKey, cellV mr joinKey), (nameCol, nm), ("started_at", cellV mr "started_at"),
   ("ended_at", cellV mr "ended_at"), ("resv_emp", cellV mr "resv_emp")]

/-- Shared shape of the three reservation tools: reservations of the
company LEFT JOIN the name table on the join key, ordered by started_at
descending, capped by the limit clause. -/
def reservationQuery (resvTab nameTab : List Row) (joinKey nameCol : String)
    (com_id : Val) (limit : Option Int) : Except String (List Row) :=
  let tenantResv := resvTab.filter fun mr => cellEq mr "com_id" com_id
  let joined := tenantResv.flatMap fun mr =>
    let names := (nameTab.filter fun nr => sqlEq (cellV nr joinKey) (cellV mr joinKey)).map
      fun nr => cellV nr nameCol
    if names.isEmpty then [resvRow joinKey nameCol mr .null]
    else names.map (resvRow joinKey nameCol mr)
  applyLimit limit (sortDescBy "started_at" joined)

/-- agent_tools.get_meeting_room_reservations (registered as
get_meeting_rooms_availability). -/
def get_meeting_room_reservations (db : Database) (com_id : Val) (limit : Option Int) :
    Except String (List Row) :=
  reservationQuery db.meeting_room_reservation db.meeting_room "room_no" "room_name" com_id limit

/-- agent_tools.get_corporate_car_reservations (registered as
get_corporate_car_availability). -/
def get_corporate_car_reservations (db : Database) (com_id : Val) (limit : Option Int) :
    Except String (List Row) :=
  reservationQuery db.corporate_car_reservation db.corporate_car "car_no" "car_name" com_id limit

/-- agent_tools.get_shared_equipment_reservations (registered as
get_shared_equipment_availability). -/
def get_shared_equipment_reservations (db : Database) (com_id : Val) (limit : Option Int) :
    Except String (List Row) :=
  reservationQuery db.shared_equipment_reservation db.shared_equipment "eq_no" "eq_name" com_id limit

/-- Modelled from the spec: query_employee_contact_by_name lives in
app/services/rdb_service.py, which is not among the provided sources (only
its import and call sites are).  Per the spec every tool is a tenant-scoped
parameterized read over whitelisted tables, so it is modelled as a
name-containment search over the employee table filtered by the company. -/
def query_employee_contact_by_name (db : Database) (name com_id : Val) : List Row :=
  (db.employee.filter fun r =>
      cellEq r "com_id" com_id && likeContains (cellV r "emp_name") name.pyStr).map
    (selectCols ["emp_name", "email", "phone", "work_phone", "emp_id", "dep_no", "pos_no"])

/-- agent_tools.search_employee_by_name: delegates to the rdb_service name
search; its limit parameter is accepted and ignored. -/
def search_employee_by_name (db : Database) (com_id name limit : Val) :
    Except String (List Row) :=
  .ok (query_employee_contact_by_name db name com_id)

/-- agent_tools.get_employee_contact: employee row of the company and
employee, with a literal LIMIT 5 in the statement. -/
def get_employee_contact (db : Database) (com_id emp_id : Val) :
    Except String (List Row) :=
  .ok (((db.employee.filter fun r =>
      cellEq r "com_id" com_id && cellEq r "emp_id" emp_id).take 5).map
    (selectCols ["emp_name", "email", "phone", "work_phone", "emp_id", "dep_no", "pos_no"]))

/-- agent_tools.search_board_posts: board rows of the company whose title or
contents contain the keyword, capped by the limit clause. -/
def search_board_posts (db : Database) (com_id keyword : Val) (limit : Option Int) :
    Except String (List Row) :=
  let pat := keyword.pyStr
  let matched := db.board.filter fun r =>
    cellEq r "com_id" com_id &&
      (likeContains (cellV r "title") pat || likeContains (cellV r "contents") pat)
  (applyLimit limit matched).map
    (List.map (selectCols ["board_no", "title", "created_at", "emp_id"]))

/-- agent_tools.get_approval_lines: approval_line rows of the company and
employee, ordered by ended_at descending, capped by the limit clause. -/
def get_approval_lines (db : Database) (com_id emp_id : Val) (limit : Option Int) :
    Except String (List Row) :=
  let matched := db.approval_line.filter fun r =>
    cellEq r "com_id" com_id && cellEq r "emp_id" emp_id
  (applyLimit limit (sortDescBy "ended_at" matched)).map
    (List.map (selectCols ["apprl_no", "doc_no", "appr_stat", "ended_at"]))

/-! ### Argument decoding and dispatch (agent_tools.execute_rdb_tasks) -/

/-- Value of an argument as the tool body sees it (None when absent,
matching the Python defaults of the optional parameters). -/
def argV (args : Row) (k : String) : Val :=
  (args.lookup k).getD .null

/-- Decoding of a limit argument as the limit clause consumes it: absent,
None, 0, False and the empty string all fall back to the default through
Python truthiness; a bool is an int; a non-empty string makes min() raise
TypeError inside the tool. -/
def decodeLimit : Option Val → Except String (Option Int)
  | none => .ok none
  | some .null => .ok none
  | some (.i n) => .ok (some n)
  | some (.b v) => .ok (some (if v then 1 else 0))
  | some (.s v) => if v = "" then .ok none else .error "TypeError: str and int"

/-- A registered tool: its declared parameter names, the subset without
defaults (required keyword arguments), and its query.  For every tool in
the registry co_varnames introduces no local variable named com_id or
emp_id beyond the parameters, so parameter membership coincides with the
co_varnames test used by the executor. -/
structure ToolSpec where
  params : List String
  required : List String
  run : Database → Row → Except String (List Row)

def runGetMyTodos (db : Database) (args : Row) : Except String (List Row) := do
  let lim ← decodeLimit (args.lookup "limit")
  get_my_todos db (argV args "emp_id") (argV args "com_id") (argV args "status") lim

def runGetMyMails (db : Database) (args : Row) : Except String (List Row) := do
  let lim ← decodeLimit (args.lookup "limit")
  get_my_mails db (argV args "emp_id") (argV args "com_id") (argV args "unread_only") lim

def runGetMyAttendance (db : Database) (args : Row) : Except String (List Row) :=
  get_my_attendance db (argV args "emp_id") (argV args "com_id") (argV args "start") (argV args "end")

def runGetMeetingsForMe (db : Database) (args : Row) : Except String (List Row) :=
  get_meetings_for_me db (argV args "emp_id") (argV args "com_id") (argV args "start") (argV args "end")

def runMeetingRooms (db : Database) (args : Row) : Except String (List Row) := do
  let lim ← decodeLimit (args.lookup "limit")
  get_meeting_room_reservations db (argV args "com_id") lim

def runCorporateCars (db : Database) (args : Row) : Except String (List Row) := do
  let lim ← decodeLimit (args.lookup "limit")
  get_corporate_car_reservations db (argV args "com_id") lim

def runSharedEquipment (db : Database) (args : Row) : Except String (List Row) := do
  let lim ← decodeLimit (args.lookup "limit")
  get_shared_equipment_reservations db (argV args "com_id") lim

def runSearchEmployee (db : Database) (args : Row) : Except String (List Row) :=
  search_employee_by_name db (argV args "com_id") (argV args "name") (argV args "limit")

def runGetEmployeeContact (db : Database) (args : Row) : Except String (List Row) :=
  get_employee_contact db (argV args "com_id") (argV args "emp_id")

def runSearchBoardPosts (db : Database) (args : Row) : Except String (List Row) := do
  let lim ← decodeLimit (args.lookup "limit")
  search_board_posts db (argV args "com_id") (argV args "keyword") lim

def runGetApprovalLines (db : Database) (args : Row) : Except String (List Row) := do
  let lim ← decodeLimit (args.lookup "limit")
  get_approval_lines db (argV args "com_id") (argV args "emp_id") lim

/-- agent_tools.TOOL_REGISTRY: the fixed name-to-tool catalogue. -/
def TOOL_REGISTRY : List (String × ToolSpec) :=
  [("get_my_todos", ⟨["emp_id", "com_id", "status", "limit"], ["emp_id", "com_id"], runGetMyTodos⟩),
   ("get_my_mails", ⟨["emp_id", "com_id", "unread_only", "limit"], ["emp_id", "com_id"], runGetMyMails⟩),
   ("get_my_attendance", ⟨["emp_id", "com_id", "start", "end"], ["emp_id", "com_id"], runGetMyAttendance⟩),
   ("get_meetings_for_me", ⟨["emp_id", "com_id", "start", "end"], ["emp_id", "com_id"], runGetMeetingsForMe⟩),
   ("get_meeting_rooms_availability", ⟨["com_id", "limit"], ["com_id"], runMeetingRooms⟩),
   ("get_corporate_car_availability", ⟨["com_id", "limit"], ["com_id"], runCorporateCars⟩),
   ("get_shared_equipment_availability", ⟨["com_id", "limit"], ["com_id"], runSharedEquipment⟩),
   ("search_employee_by_name", ⟨["com_id", "name", "limit"], ["com_id", "name"], runSearchEmployee⟩),
   ("get_employee_contact", ⟨["com_id", "emp_id"], ["com_id", "emp_id"], runGetEmployeeContact⟩),
   ("search_board_posts", ⟨["com_id", "keyword", "limit"], ["com_id", "keyword"], runSearchBoardPosts⟩),
   ("get_approval_lines", ⟨["com_id", "emp_id", "limit"], ["com_id", "emp_id"], runGetApprovalLines⟩)]

/-- One tool invocation fn(**args): the per-task fault oracle stands for
engine or connection errors; a missing required keyword or an unexpected
keyword raises TypeError before the query runs. -/
def invokeTool (db : Database) (spec : ToolSpec) (args : Row) (fault : Option String) :
    Except String (List Row) :=
  match fault with
  | some e => .error e
  | none =>
    if spec.required.all (fun p => (args.lookup p).isSome) &&
        args.all (fun kv => spec.params.contains kv.1) then
      spec.run db args
    else .error "TypeError: bad keyword arguments"

/-- Python truthiness of an optional string (the executor injects a tenant
id only when it is truthy). -/
def truthyOptStr : Option String → Bool
  | some v => v ≠ ""
  | none => false

/-- The tenant-injection step of execute_rdb_tasks: setdefault com_id and
emp_id into the task arguments when the tool declares the parameter and the
context value is truthy. -/
def injectTenant (spec : ToolSpec) (args : Row) (com_id emp_id : Option String) : Row :=
  let a1 :=
    if spec.params.contains "com_id" && truthyOptStr com_id then
      setdefault args "com_id" (.s (com_id.getD ""))
    else args
  if spec.params.contains "emp_id" && truthyOptStr emp_id then
    setdefault a1 "emp_id" (.s (emp_id.getD ""))
  else a1

/-- A relational task as planned: tool name plus argument dict. -/
structure RdbTask where
  name : String
  args : Row
  deriving DecidableEq

/-- The task loop of agent_tools.execute_rdb_tasks, carrying the index used
by the per-task fault oracle: unknown names are skipped, failed invocations
are skipped, successful rows are concatenated and one summary line
name: n rows is recorded per successful task. -/
def execute_rdb_tasks_from (db : Database) (faults : Nat → Option String)
    (com_id emp_id : Option String) : Nat → List RdbTask → List Row × List String
  | _, [] => ([], [])
  | k, t :: ts =>
    match TOOL_REGISTRY.lookup t.name with
    | none => execute_rdb_tasks_from db faults com_id emp_id (k + 1) ts
    | some spec =>
      match invokeTool db spec (injectTenant spec t.args com_id emp_id) (faults k) with
      | .error _ => execute_rdb_tasks_from db faults com_id emp_id (k + 1) ts
      | .ok rows =>
        let rest := execute_rdb_tasks_from db faults com_id emp_id (k + 1) ts
        (rows ++ rest.1, (t.name ++ ": " ++ toString rows.length ++ " rows") :: rest.2)

/-- agent_tools.execute_rdb_tasks. -/
def execute_rdb_tasks (db : Database) (faults : Nat → Option String)
    (tasks : List RdbTask) (com_id emp_id : Option String) : List Row × List String :=
  execute_rdb_tasks_from db faults com_id emp_id 0 tasks

/-! ### The planner (agent_planner.py) -/

/-- A semantic retrieval task of the plan. -/
structure RagTask where
  query : String
  top_k : Int
  deriving DecidableEq

/-- The plan mode literals of agent_planner.QueryPlan (the spec names them
relational, semantic and hybrid). -/
inductive PlanMode where
  | rdb
  | rag
  | hybrid
  deriving DecidableEq

/-- agent_planner.QueryPlan. -/
structure QueryPlan where
  mode : PlanMode
  rag_tasks : List RagTask
  rdb_tasks : List RdbTask
  answer_style : Option String
  deriving DecidableEq

/-- Outcome of one call to an external model endpoint: it raises or returns
a value. -/
inductive LlmOutcome (α : Type) where
  | raises (msg : String)
  | returns (v : α)

/-- The fallback plan of agent_planner.plan_query: mode rag with the single
task over the original question (top_k takes its declared default 5). -/
def defaultPlan (question : String) : QueryPlan :=
  ⟨.rag, [⟨question, 5⟩], [], none⟩

/-- raw = resp.choices[0].message.content or "{}" (None and the empty
string both fall back to the empty JSON object). -/
def rawContent : Option String → String
  | some v => if v ≠ "" then v else "{}"
  | none => "{}"

/-- agent_planner.plan_query: call the planner model, parse its output as
JSON and validate it against the QueryPlan shape; every model exception and
every parse or validation error yields the default rag plan.  The combined
json.loads + QueryPlan(**d) step is the parse argument, returning none
exactly when it raises; the prompt text does not influence the embedded
control flow. -/
def plan_query (question : String) (outcome : LlmOutcome (Option String))
    (parse : String → Option QueryPlan) : QueryPlan :=
  match outcome with
  | .raises _ => defaultPlan question
  | .returns content =>
    match parse (rawContent content) with
    | some p => p
    | none => defaultPlan question

/-! ### The synthesizer (agent_synthesizer.py) -/

/-- One history turn (role plus content). -/
structure ChatMsg where
  role : String
  content : String

/-- ASCII lowering of one character (str.lower on the ASCII roles this
service passes). -/
def lowerChar (c : Char) : Char :=
  if 65 ≤ c.toNat ∧ c.toNat ≤ 90 then Char.ofNat (c.toNat + 32) else c

/-- The role rendering of _history_to_text: role.lower().startswith(user)
selects the User label, anything else is Assistant. -/
def rolePre (role : String) : String :=
  if takesPre "user".data (role.data.map lowerChar) then "User" else "Assistant"

/-- agent_synthesizer._history_to_text: empty history renders to the empty
string, otherwise one Role: content line per turn. -/
def history_to_text (history : List ChatMsg) : String :=
  match history with
  | [] => ""
  | _ => joinSep "\n" (history.map fun m => rolePre m.role ++ ": " ++ m.content)

/-- The style-hint fragment: rendered only for a truthy answer_style. -/
def style_hint (answer_style : Option String) : String :=
  match answer_style with
  | some v => if v ≠ "" then "답변 스타일: " ++ v else ""
  | none => ""

/-- Python s or d for strings. -/
def pyOr (s d : String) : String :=
  if s ≠ "" then s else d

/-- The user prompt of agent_synthesizer.stream_final_answer, exactly as
Python parses the source expression: the conditional expression inside the
parenthesized implicit string concatenation groups the pieces, so the
prompt is instruction text + style hint + history block when history_text
is truthy, and the question / evidence blocks (with none of the
instruction or style text) when history_text is empty. -/
def user_prompt (question history_text db_text rag_text : String)
    (answer_style : Option String) : String :=
  if history_text ≠ "" then
    "아래 DB 결과와 규정 근거를 활용해 한국어로 간결하고 정확하게 답변하세요. " ++
      "DB는 사실 데이터, RAG는 규정/정책 근거입니다. 정보가 없으면 모른다고 말하세요. " ++
      style_hint answer_style ++ "\n\n" ++ "[이전 대화]\n" ++ history_text ++ "\n\n"
  else
    "" ++ "[질문]\n" ++ question ++ "\n\n" ++
      "[DB 결과]\n" ++ pyOr db_text "(없음)" ++ "\n\n" ++
      "[규정 근거]\n" ++ pyOr rag_text "(없음)"

/-- Fuel-driven split of a character list on a separator occurrence
(Python str.split with a literal separator, keeping empty parts). -/
def splitSeqAux (sep : List Char) : Nat → List Char → List Char → List (List Char)
  | 0, cur, _ => [cur.reverse]
  | fuel + 1, cur, l =>
    match l with
    | [] => [cur.reverse]
    | c :: cs =>
      if takesPre sep (c :: cs) then
        cur.reverse :: splitSeqAux sep fuel [] (List.drop sep.length (c :: cs))
      else splitSeqAux sep fuel (c :: cur) cs

/-- Python s.split(sep) for a non-empty literal separator. -/
def pySplit (sep s : String) : List String :=
  (splitSeqAux sep.data (s.data.length + 1) [] s.data).map fun cs => String.mk cs

/-- ASCII whitespace, the characters str.strip removes from the model
output handled here. -/
def isPySpace (c : Char) : Bool :=
  c = ' ' || c = '\t' || c = '\n' || c = '\x0b' || c = '\x0c' || c = '\r'

/-- Python s.strip(). -/
def pyStrip (s : String) : String :=
  String.mk (((s.data.dropWhile isPySpace).reverse.dropWhile isPySpace).reverse)

/-- The fallback re-chunking of stream_final_answer: split the full
response on blank lines, strip each part, keep the non-empty parts with a
newline appended. -/
def paragraphChunks (full : String) : List String :=
  (((pySplit "\n\n" full).map pyStrip).filter (· ≠ "")).map (· ++ "\n")

/-- Observable behavior of the streaming model call for one request: it
completes yielding deltas, raises mid-stream after yielding some deltas,
or fails before yielding anything; in both failing cases the source makes
one non-streaming call whose outcome is the fallback component. -/
inductive SynthBehavior where
  | streams (deltas : List String)
  | streamsThenRaises (deltas : List String) (fallback : Except String String)
  | failsToEstablish (fallback : Except String String)

/-- agent_synthesizer.stream_final_answer as a generator trace: the chunks
it yields and the exception (if any) it raises after them.  Falsy deltas
are skipped.  The try block wraps the whole yielding loop, so any
exception inside it - including one raised mid-stream after deltas were
already yielded - is caught and answered by the single non-streaming
fallback call, whose full text (None becomes the empty string) is
re-chunked into paragraphs; only an exception of the fallback call itself
escapes the generator. -/
def stream_final_answer : SynthBehavior → List String × Option String
  | .streams deltas => (deltas.filter (· ≠ ""), none)
  | .streamsThenRaises deltas (.ok full) =>
    (deltas.filter (· ≠ "") ++ paragraphChunks full, none)
  | .streamsThenRaises deltas (.error e) => (deltas.filter (· ≠ ""), some e)
  | .failsToEstablish (.ok full) => (paragraphChunks full, none)
  | .failsToEstablish (.error e) => ([], some e)

/-! ### Callback delivery and the orchestrator (chatbot_service.py)

callback_client.py is not among the provided sources; its contract is
modelled from the spec: post_with_retry either delivers the event and
returns, or raises (after bounded retries, or at once on a permanent
rejection).  The oracle postOk records, per outbound attempt index,
whether that post was delivered; validate_callback_url is taken as
passed (a failing validation happens before any delivery). -/

/-- One callback payload as the source builds it (absent JSON keys are the
none / default fields). -/
structure CallbackEvent where
  messageId : String
  chunk : Option String
  done : Bool
  success : Bool
  errorMessage : Option String
  deriving DecidableEq

/-- A streamed-chunk payload. -/
def chunkEvent (mid s : String) : CallbackEvent :=
  ⟨mid, some s, false, true, none⟩

/-- The terminal success payload. -/
def doneEvent (mid : String) : CallbackEvent :=
  ⟨mid, none, true, true, none⟩

/-- The terminal error payload of the except branch. -/
def errorEvent (mid e : String) : CallbackEvent :=
  ⟨mid, none, true, false, some e⟩

/-- Stringified cause of a failed delivery (the exact text is irrelevant;
it becomes the errorMessage of the best-effort error event). -/
def postFailMsg : String := "callback delivery failed"

/-- The fixed refusal chunk of chatbot_service.run_chatbot. -/
def refusalMsg : String := "근거와 데이터가 부족해 답변할 수 없습니다.\n"

/-- Delivery phase of run_chatbot as an attempt trace: each attempted post
paired with whether it was delivered.  Chunks are posted one by one in
emission order, then the terminal event; when a post raises, or when the
stream raises after its yielded chunks, the except branch attempts one
best-effort error post whose own failure is swallowed. -/
def deliverLoop (postOk : Nat → Bool) (mid : String) :
    Nat → List String → Option String → List (CallbackEvent × Bool)
  | k, [], none =>
    if postOk k then [(doneEvent mid, true)]
    else [(doneEvent mid, false), (errorEvent mid postFailMsg, postOk (k + 1))]
  | k, [], some e => [(errorEvent mid e, postOk k)]
  | k, c :: cs, err =>
    if postOk k then (chunkEvent mid c, true) :: deliverLoop postOk mid (k + 1) cs err
    else [(chunkEvent mid c, false), (errorEvent mid postFailMsg, postOk (k + 1))]

/-- The inbound request fields run_chatbot consumes. -/
structure ChatbotRunRequest where
  question : String
  history : List ChatMsg
  empId : String
  comId : String
  messageId : String

/-- The per-request interactions with the external collaborators: the
planner model and its parse step, the per-task SQL fault oracle, the
free-form SQL fallback (rdb_service.query_db_with_llm, absent from the
provided sources), the semantic search, the synthesis stream and the
callback outcomes. -/
structure Oracles where
  planModel : LlmOutcome (Option String)
  planParse : String → Option QueryPlan
  faults : Nat → Option String
  llmSql : Except String (List Row)
  ragSearch : String → Int → Except String (List String)
  synth : SynthBehavior
  postOk : Nat → Bool

/-- chatbot_service._run_rag_tasks: a single default task over the raw
question when the list is empty; per-task search failures are logged and
contribute no passages.  search_prov_chunks is absent from the provided
weaviate_store.py, so the search is the ragSearch oracle (modelled from
the spec contract: search(query, topK) returns ranked passages). -/
def run_rag_tasks (ragSearch : String → Int → Except String (List String))
    (rag_tasks : List RagTask) (question : String) : List String :=
  let tasks := if rag_tasks.isEmpty then [⟨question, 5⟩] else rag_tasks
  tasks.flatMap fun t =>
    match ragSearch t.query t.top_k with
    | .ok res => res
    | .error _ => []

/-- The gathering phase of run_chatbot: dispatch per plan mode, then the
fallback ladder (free-form SQL when the pure-rdb branch found nothing, and
the two hybrid fallbacks); a failing SQL fallback leaves the rows as they
were. -/
def gather (db : Database) (o : Oracles) (req : ChatbotRunRequest) (plan : QueryPlan) :
    List Row × List String :=
  let db_rows :=
    if plan.mode = PlanMode.rdb ∨ plan.mode = PlanMode.hybrid then
      let res := execute_rdb_tasks db o.faults plan.rdb_tasks (some req.comId) (some req.empId)
      if res.1.isEmpty ∧ plan.mode = PlanMode.rdb then
        match o.llmSql with
        | .ok rows => rows
        | .error _ => res.1
      else res.1
    else []
  let rag_contexts :=
    if plan.mode = PlanMode.rag ∨ plan.mode = PlanMode.hybrid then
      run_rag_tasks o.ragSearch plan.rag_tasks req.question
    else []
  let db_rows2 :=
    if db_rows.isEmpty ∧ plan.mode = PlanMode.hybrid then
      match o.llmSql with
      | .ok rows => rows
      | .error _ => db_rows
    else db_rows
  let rag_contexts2 :=
    if rag_contexts.isEmpty ∧ plan.mode = PlanMode.hybrid then
      run_rag_tasks o.ragSearch [] req.question
    else rag_contexts
  (db_rows2, rag_contexts2)

/-- The evidence texts db_text and rag_text of run_chatbot. -/
def gatherTexts (db : Database) (o : Oracles) (req : ChatbotRunRequest) : String × String :=
  let plan := plan_query req.question o.planModel o.planParse
  let gathered := gather db o req plan
  (format_rows gathered.1 10, joinSep "\n" gathered.2)

/-- The chunk sequence the orchestrator delivers plus the exception (if
any) ending it: the fixed refusal chunk when both evidence texts are
empty (synthesis skipped), otherwise the synthesizer stream. -/
def streamOrRefusal (db : Database) (o : Oracles) (req : ChatbotRunRequest) :
    List String × Option String :=
  let texts := gatherTexts db o req
  if texts.1 = "" ∧ texts.2 = "" then ([refusalMsg], none)
  else stream_final_answer o.synth

/-- chatbot_service.run_chatbot as its outbound-callback attempt trace.
The two delivery sites of the source - the refusal branch posting the
fixed chunk then the terminal event, and the streaming loop posting each
delta then the terminal event - follow the same post / except /
best-effort-error discipline, so both are driven through the one delivery
loop. -/
def run_chatbot (db : Database) (o : Oracles) (req : ChatbotRunRequest) :
    List (CallbackEvent × Bool) :=
  let st := streamOrRefusal db o req
  deliverLoop o.postOk req.messageId 0 st.1 st.2

/-- The events the callback endpoint actually receives: attempts whose
post succeeded. -/
def delivered (tr : List (CallbackEvent × Bool)) : List CallbackEvent :=
  tr.filterMap fun p => if p.2 then some p.1 else none

/-- Chunk emission order of the request. -/
def emission (db : Database) (o : Oracles) (req : ChatbotRunRequest) : List String :=
  (streamOrRefusal db o req).1

/-- The terminal event the orchestrator attempts after the chunks: the
done event on normal completion, the error event when the stream raised. -/
def terminalEv (db : Database) (o : Oracles) (req : ChatbotRunRequest) : CallbackEvent :=
  match (streamOrRefusal db o req).2 with
  | none => doneEvent req.messageId
  | some e => errorEvent req.messageId e

/-! ### Helper lemmas -/

theorem lookup_append_some {l1 l2 : Row} {k : String} {v : Val}
    (h : l1.lookup k = some v) : (l1 ++ l2).lookup k = some v := by
  induction l1 with
  | nil => simp [List.lookup] at h
  | cons a as ih =>
    obtain ⟨k1, v1⟩ := a
    rw [List.cons_append, List.lookup_cons]
    rw [List.lookup_cons] at h
    cases hk : (k == k1) with
    | true => rw [hk] at h; exact h
    | false => rw [hk] at h; exact ih h

theorem lookup_append_none {l1 : Row} (l2 : Row) {k : String}
    (h : l1.lookup k = none) : (l1 ++ l2).lookup k = l2.lookup k := by
  induction l1 with
  | nil => simp
  | cons a as ih =>
    obtain ⟨k1, v1⟩ := a
    rw [List.cons_append, List.lookup_cons]
    rw [List.lookup_cons] at h
    cases hk : (k == k1) with
    | true => rw [hk] at h; exact absurd h (by simp)
    | false => rw [hk] at h; exact ih h

theorem setdefault_lookup_same (r : Row) (k : String) (v : Val) :
    (setdefault r k v).lookup k = some ((r.lookup k).getD v) := by
  unfold setdefault
  cases h : r.lookup k with
  | some w =>
    show r.lookup k = some (Option.getD (some w) v)
    simpa using h
  | none =>
    show (r ++ [(k, v)]).lookup k = some (Option.getD none v)
    rw [lookup_append_none _ h]
    simp [List.lookup]

theorem setdefault_lookup_of_some {r : Row} {k : String} {v w : Val}
    (h : r.lookup k = some w) : setdefault r k v = r := by
  unfold setdefault
  rw [h]

theorem exceptMap_ok {α β : Type} {em : Except String α} {f : α → β} {out : β}
    (h : em.map f = .ok out) : ∃ l, em = .ok l ∧ out = f l := by
  cases em with
  | error e => simp [Except.map] at h
  | ok l => refine ⟨l, rfl, ?_⟩; simpa [Except.map] using h.symm

theorem applyLimit_ok_sub {limit : Option Int} {rows out : List Row}
    (h : applyLimit limit rows = .ok out) : out ⊆ rows := by
  unfold applyLimit at h
  by_cases hneg : limitClauseVal limit 50 < 0
  · simp [hneg] at h
  · simp [hneg] at h
    rw [← h]
    exact List.take_subset _ _

/-! ### C3: the planner's failure policy -/

/-- Failure of the planning step: the model call raised, or its output
failed JSON parsing / QueryPlan shape validation. -/
def planningFailed (outcome : LlmOutcome (Option String))
    (parse : String → Option QueryPlan) : Prop :=
  match outcome with
  | .raises _ => True
  | .returns content => parse (rawContent content) = none

/-- C3: plan_query is a total function of the model outcome (it never
propagates an exception), and on every model exception, JSON-parse failure
or shape-validation failure it returns the default plan: mode rag with the
single semantic task over the original question and top_k 5. -/
theorem plan_query_default (question : String) (outcome : LlmOutcome (Option String))
    (parse : String → Option QueryPlan) (h : planningFailed outcome parse) :
    plan_query question outcome parse = defaultPlan question
    ∧ plan_query question outcome parse = ⟨PlanMode.rag, [⟨question, 5⟩], [], none⟩ := by
  cases outcome with
  | raises msg => exact ⟨rfl, rfl⟩
  | returns content =>
    have hp : parse (rawContent content) = none := h
    constructor <;> simp [plan_query, hp, defaultPlan]

/-- Witness for C3 at a raising planner call. -/
theorem plan_query_default_witness :
    plan_query "질문" (.raises "timeout") (fun _ => none) = defaultPlan "질문" :=
  (plan_query_default "질문" (.raises "timeout") (fun _ => none) trivial).1

/-! ### C7: the synthesizer's user prompt -/

/-- C7: the conditional expression mis-assembles the prompt.  With empty
history the prompt is only the question and evidence blocks, without any
of the grounding-instruction or style text; with non-empty history it is
the instructions, style hint and history block, without the question and
without either evidence text. -/
theorem user_prompt_mis_assembled :
    user_prompt "Q" "" "DBT" "RAGT" (some "요약") =
      "[질문]\nQ\n\n[DB 결과]\nDBT\n\n[규정 근거]\nRAGT"
    ∧ user_prompt "Q" (history_to_text [⟨"user", "hi"⟩]) "DBT" "RAGT" (some "요약") =
      "아래 DB 결과와 규정 근거를 활용해 한국어로 간결하고 정확하게 답변하세요. DB는 사실 데이터, RAG는 규정/정책 근거입니다. 정보가 없으면 모른다고 말하세요. 답변 스타일: 요약\n\n[이전 대화]\nUser: hi\n\n" :=
  ⟨rfl, rfl⟩

/-! ### C8: the row-limit ceiling -/

/-- C8 counterexample: a requested limit of 0 is falsy in Python, so the
clause renders LIMIT 50 instead of min(0, 50) = 0. -/
theorem limit_clause_zero_cex :
    limit_clause (some 0) 50 = " LIMIT 50" ∧ ¬ limitClauseVal (some 0) 50 = min 0 50 :=
  ⟨rfl, by decide⟩

/-- C8 amended: the limit clause never exceeds the fixed ceiling 50, it
equals min(requested, 50) whenever the requested limit is a nonzero
integer (a requested 0 is treated as absent and falls back to the
default), and a result set that passes the clause holds at most 50 rows. -/
theorem limit_clause_cap (limit : Option Int) :
    limitClauseVal limit 50 ≤ 50
    ∧ (∀ n : Int, limit = some n → n ≠ 0 → limitClauseVal limit 50 = min n 50)
    ∧ (∀ rows out : List Row, applyLimit limit rows = .ok out → out.length ≤ 50) := by
  refine ⟨min_le_right _ _, ?_, ?_⟩
  · intro n hn hnz
    subst hn
    simp [limitClauseVal, limitOr, hnz]
  · intro rows out hok
    unfold applyLimit at hok
    by_cases hneg : limitClauseVal limit 50 < 0
    · simp [hneg] at hok
    · simp [hneg] at hok
      calc out.length ≤ (limitClauseVal limit 50).toNat := by
            rw [← hok]; exact List.length_take_le _ _
        _ ≤ 50 := Int.toNat_le.mpr (min_le_right _ _)

/-- Witness for C8 at the requested limit 7. -/
theorem limit_clause_cap_witness :
    limitClauseVal (some 7) 50 = min 7 50 ∧ limitClauseVal (some 7) 50 ≤ 50 :=
  ⟨(limit_clause_cap (some 7)).2.1 7 rfl (by decide), (limit_clause_cap (some 7)).1⟩

/-! ### C9: row formatting -/

/-- C9: format_rows renders the empty list to the empty string; on 15 rows
with maxRows 10 the lines are the header built from the first record's
keys, the first 10 data rows, then the elision marker ...(5 more); and
whenever the row count does not exceed maxRows no marker is appended. -/
theorem format_rows_spec (rows : List Row) (maxRows : Nat) :
    format_rows [] maxRows = ""
    ∧ (rows ≠ [] → format_rows rows maxRows = joinSep "\n" (format_rows_lines rows maxRows))
    ∧ (rows.length = 15 →
        format_rows_lines rows 10 =
          joinSep " | " (rows.headI.map Prod.fst) ::
            (rows.take 10).map (dataLine (rows.headI.map Prod.fst)) ++ ["...(5 more)"])
    ∧ (rows.length ≤ maxRows →
        format_rows_lines rows maxRows =
          match rows with
          | [] => []
          | first :: _ =>
            joinSep " | " (first.map Prod.fst) :: rows.map (dataLine (first.map Prod.fst))) := by
  refine ⟨rfl, ?_, ?_, ?_⟩
  · cases rows with
    | nil => intro h; exact absurd rfl h
    | cons f rs => intro _; rfl
  · cases rows with
    | nil => intro h15; simp at h15
    | cons f rs =>
      intro h15
      have hlt : 10 < (f :: rs).length := by rw [h15]; norm_num
      simp only [format_rows_lines, List.headI, if_pos hlt, h15]
      rfl
  · cases rows with
    | nil => intro _; rfl
    | cons f rs =>
      intro hle
      have hnlt : ¬ maxRows < (f :: rs).length := Nat.not_lt.mpr hle
      simp only [format_rows_lines, if_neg hnlt, List.take_of_length_le hle]

/-- Witness for C9 on 15 single-column rows with maxRows 10. -/
theorem format_rows_spec_witness :
    (List.replicate 15 ([("k", Val.i 1)] : Row)).length = 15
    ∧ format_rows_lines (List.replicate 15 ([("k", Val.i 1)] : Row)) 10 =
        joinSep " | " ((List.replicate 15 ([("k", Val.i 1)] : Row)).headI.map Prod.fst) ::
          ((List.replicate 15 ([("k", Val.i 1)] : Row)).take 10).map
            (dataLine ((List.replicate 15 ([("k", Val.i 1)] : Row)).headI.map Prod.fst)) ++
          ["...(5 more)"] :=
  ⟨rfl, (format_rows_spec (List.replicate 15 [("k", Val.i 1)]) 10).2.2.1 rfl⟩

/-! ### C10: caller-supplied tenant arguments win over injection -/

theorem setdefault_lookup_pres {r : Row} {k k' : String} {v w : Val}
    (h : r.lookup k' = some w) : (setdefault r k v).lookup k' = some w := by
  unfold setdefault
  cases hk : r.lookup k with
  | some u => exact h
  | none =>
    show (r ++ [(k, v)]).lookup k' = some w
    exact lookup_append_some h

/-- Tenant fixture for the cross-tenant run: the employee table holds one
record belonging to company B. -/
def dbForeign : Database :=
  ⟨[], [], [], [], [], [], [], [], [], [], [],
   [[("com_id", .s "B"), ("emp_id", .s "eA"), ("emp_name", .s "Bob"),
     ("email", .s "bob@b.example"), ("phone", .s "010"), ("work_phone", .null),
     ("dep_no", .i 1), ("pos_no", .i 2)]],
   [], []⟩

/-- C10: setdefault leaves a com_id or emp_id binding already present in
the task arguments unchanged (tenant values are injected only for absent
keys), so a task whose argument map carries a foreign com_id runs the tool
against that company: dispatched under tenant company A, the task bound to
com_id B returns company B's employee record. -/
theorem tenant_args_pass_through :
    (∀ (spec : ToolSpec) (args : Row) (com emp : Option String) (v : Val),
      args.lookup "com_id" = some v →
      (injectTenant spec args com emp).lookup "com_id" = some v)
    ∧ (∀ (spec : ToolSpec) (args : Row) (com emp : Option String) (v : Val),
      args.lookup "emp_id" = some v →
      (injectTenant spec args com emp).lookup "emp_id" = some v)
    ∧ execute_rdb_tasks dbForeign (fun _ => none)
        [⟨"get_employee_contact", [("com_id", Val.s "B")]⟩] (some "A") (some "eA") =
      ([[("emp_name", .s "Bob"), ("email", .s "bob@b.example"), ("phone", .s "010"),
         ("work_phone", .null), ("emp_id", .s "eA"), ("dep_no", .i 1), ("pos_no", .i 2)]],
       ["get_employee_contact: 1 rows"]) := by
  refine ⟨?_, ?_, rfl⟩
  · intro spec args com emp v h
    simp only [injectTenant]
    have step1 : (if (spec.params.contains "com_id" && truthyOptStr com) = true
        then setdefault args "com_id" (Val.s (com.getD "")) else args).lookup "com_id" = some v := by
      split
      · rw [setdefault_lookup_of_some h]; exact h
      · exact h
    split
    · exact setdefault_lookup_pres step1
    · exact step1
  · intro spec args com emp v h
    simp only [injectTenant]
    have step1 : (if (spec.params.contains "com_id" && truthyOptStr com) = true
        then setdefault args "com_id" (Val.s (com.getD "")) else args).lookup "emp_id" = some v := by
      split
      · exact setdefault_lookup_pres h
      · exact h
    split
    · rw [setdefault_lookup_of_some step1]; exact step1
    · exact step1

/-- Witness for C10: a task-level com_id binding survives injection. -/
theorem tenant_args_pass_through_witness :
    (injectTenant ⟨["com_id", "emp_id"], ["com_id", "emp_id"], runGetEmployeeContact⟩
        [("com_id", Val.s "B")] (some "A") (some "eA")).lookup "com_id" = some (Val.s "B") :=
  tenant_args_pass_through.1 _ _ _ _ _ rfl

/-! ### C4: the executor's skip-and-continue batch semantics -/

/-- The outcome of one dispatched task at its batch index: none when the
name is unknown or the invocation raises, otherwise the rows the tool
returned. -/
def taskOutcome (db : Database) (faults : Nat → Option String)
    (com_id emp_id : Option String) (k : Nat) (t : RdbTask) : Option (List Row) :=
  match TOOL_REGISTRY.lookup t.name with
  | none => none
  | some spec =>
    match invokeTool db spec (injectTenant spec t.args com_id emp_id) (faults k) with
    | .error _ => none
    | .ok rows => some rows

theorem execute_from_spec (db : Database) (faults : Nat → Option String)
    (com emp : Option String) : ∀ (tasks : List RdbTask) (k : Nat),
    execute_rdb_tasks_from db faults com emp k tasks =
      (((tasks.enumFrom k).filterMap fun p => taskOutcome db faults com emp p.1 p.2).flatten,
       (tasks.enumFrom k).filterMap fun p =>
         (taskOutcome db faults com emp p.1 p.2).map fun rows =>
           p.2.name ++ ": " ++ toString rows.length ++ " rows") := by
  intro tasks
  induction tasks with
  | nil => intro k; rfl
  | cons t ts ih =>
    intro k
    rw [List.enumFrom_cons]
    simp only [execute_rdb_tasks_from, taskOutcome]
    cases hreg : TOOL_REGISTRY.lookup t.name with
    | none => simp [hreg, ih (k + 1), taskOutcome]
    | some spec =>
      cases hinv : invokeTool db spec (injectTenant spec t.args com emp) (faults k) with
      | error e => simp [hreg, hinv, ih (k + 1), taskOutcome]
      | ok rows => simp [hreg, hinv, ih (k + 1), taskOutcome]

/-- C4: execute_rdb_tasks is a total function of the batch (one broken
task never aborts it): the returned rows are exactly the concatenation, in
task order, of the rows of the tasks that resolved and ran successfully
(row order preserved inside each task), the summaries are exactly one
name: n rows line per such task, and a task whose name is not registered
contributes nothing. -/
theorem execute_rdb_tasks_spec (db : Database) (faults : Nat → Option String)
    (tasks : List RdbTask) (com emp : Option String) :
    (execute_rdb_tasks db faults tasks com emp).1 =
      ((tasks.enumFrom 0).filterMap fun p => taskOutcome db faults com emp p.1 p.2).flatten
    ∧ (execute_rdb_tasks db faults tasks com emp).2 =
      ((tasks.enumFrom 0).filterMap fun p =>
        (taskOutcome db faults com emp p.1 p.2).map fun rows =>
          p.2.name ++ ": " ++ toString rows.length ++ " rows")
    ∧ (∀ (k : Nat) (t : RdbTask), TOOL_REGISTRY.lookup t.name = none →
        taskOutcome db faults com emp k t = none) := by
  refine ⟨?_, ?_, ?_⟩
  · rw [execute_rdb_tasks, execute_from_spec]
  · rw [execute_rdb_tasks, execute_from_spec]
  · intro k t h
    simp [taskOutcome, h]

/-- Witness for C4: an unregistered task name yields no outcome. -/
theorem execute_rdb_tasks_spec_witness :
    taskOutcome dbForeign (fun _ => none) (some "A") (some "eA") 0 ⟨"nope", []⟩ = none :=
  (execute_rdb_tasks_spec dbForeign (fun _ => none) [] (some "A") (some "eA")).2.2 0 ⟨"nope", []⟩ rfl

/-! ### C2: tenant scoping of the registry tools -/

theorem mem_filter_limit_proj {p : Row → Bool} {tab : List Row} {limit : Option Int}
    {out : List Row} {proj : Row → Row}
    (h : (applyLimit limit (tab.filter p)).map (List.map proj) = .ok out) :
    ∀ r ∈ out, ∃ src ∈ tab, p src = true ∧ r = proj src := by
  intro r hr
  obtain ⟨l, hl, hout⟩ := exceptMap_ok h
  subst hout
  obtain ⟨x, hx, hxr⟩ := List.mem_map.mp hr
  obtain ⟨hxt, hpx⟩ := List.mem_filter.mp (applyLimit_ok_sub hl hx)
  exact ⟨x, hxt, hpx, hxr.symm⟩

theorem mem_filter_sort_limit_proj {p : Row → Bool} {tab : List Row} {key : String}
    {limit : Option Int} {out : List Row} {proj : Row → Row}
    (h : (applyLimit limit (sortDescBy key (tab.filter p))).map (List.map proj) = .ok out) :
    ∀ r ∈ out, ∃ src ∈ tab, p src = true ∧ r = proj src := by
  intro r hr
  obtain ⟨l, hl, hout⟩ := exceptMap_ok h
  subst hout
  obtain ⟨x, hx, hxr⟩ := List.mem_map.mp hr
  have hxs : x ∈ sortDescBy key (tab.filter p) := applyLimit_ok_sub hl hx
  have hxf : x ∈ tab.filter p := List.mem_mergeSort.mp hxs
  obtain ⟨hxt, hpx⟩ := List.mem_filter.mp hxf
  exact ⟨x, hxt, hpx, hxr.symm⟩

theorem mem_reservationQuery {resvTab nameTab : List Row} {joinKey nameCol : String}
    {com : Val} {limit : Option Int} {out : List Row}
    (h : reservationQuery resvTab nameTab joinKey nameCol com limit = .ok out) :
    ∀ r ∈ out, ∃ mr ∈ resvTab, cellEq mr "com_id" com = true ∧
      ∃ nm, r = resvRow joinKey nameCol mr nm := by
  intro r hr
  simp only [reservationQuery] at h
  have hrs := applyLimit_ok_sub h hr
  have hrj := List.mem_mergeSort.mp hrs
  obtain ⟨mr, hmr, hrin⟩ := List.mem_flatMap.mp hrj
  obtain ⟨hmrt, hmrc⟩ := List.mem_filter.mp hmr
  refine ⟨mr, hmrt, hmrc, ?_⟩
  by_cases hemp : ((nameTab.filter fun nr => sqlEq (cellV nr joinKey) (cellV mr joinKey)).map
      fun nr => cellV nr nameCol).isEmpty = true
  · rw [if_pos hemp] at hrin
    exact ⟨.null, (List.mem_singleton.mp hrin)⟩
  · rw [if_neg hemp] at hrin
    obtain ⟨nm, _, hnm⟩ := List.mem_map.mp hrin
    exact ⟨nm, hnm.symm⟩

/-- C2 amended: the executor injects the tenant context ids into omitted
task arguments whenever the resolved tool declares them and they are
truthy, and every registry tool except get_my_mails confines its result to
source rows of the given company; get_my_mails is scoped only by the
sender employee id and applies no company filter
(query_employee_contact_by_name, the body of search_employee_by_name, is
modelled from the spec since rdb_service.py is not among the sources). -/
theorem tools_tenant_scoped :
    (∀ (spec : ToolSpec) (args : Row) (c : String) (emp : Option String),
      c ≠ "" → spec.params.contains "com_id" = true → args.lookup "com_id" = none →
      (injectTenant spec args (some c) emp).lookup "com_id" = some (.s c))
    ∧ (∀ (spec : ToolSpec) (args : Row) (com : Option String) (e : String),
      e ≠ "" → spec.params.contains "emp_id" = true → args.lookup "emp_id" = none →
      (injectTenant spec args com (some e)).lookup "emp_id" = some (.s e))
    ∧ (∀ db e c st lim out, get_my_todos db e c st lim = .ok out →
        ∀ r ∈ out, ∃ src ∈ db.todo_list, cellEq src "com_id" c = true ∧
          r = selectCols ["todo_no", "title", "is_done", "created_at", "updated_at"] src)
    ∧ (∀ db e c start stop out, get_my_attendance db e c start stop = .ok out →
        ∀ r ∈ out, ∃ src ∈ db.attendance, cellEq src "com_id" c = true ∧
          r = selectCols ["day", "type", "created_at"] src)
    ∧ (∀ db e c start stop out, get_meetings_for_me db e c start stop = .ok out →
        ∀ r ∈ out, ∃ m ∈ db.meeting, cellEq m "com_id" c = true ∧
          r = selectCols ["meet_no", "title", "started_at", "status"] m)
    ∧ (∀ db c lim out, get_meeting_room_reservations db c lim = .ok out →
        ∀ r ∈ out, ∃ mr ∈ db.meeting_room_reservation, cellEq mr "com_id" c = true ∧
          ∃ nm, r = resvRow "room_no" "room_name" mr nm)
    ∧ (∀ db c lim out, get_corporate_car_reservations db c lim = .ok out →
        ∀ r ∈ out, ∃ mr ∈ db.corporate_car_reservation, cellEq mr "com_id" c = true ∧
          ∃ nm, r = resvRow "car_no" "car_name" mr nm)
    ∧ (∀ db c lim out, get_shared_equipment_reservations db c lim = .ok out →
        ∀ r ∈ out, ∃ mr ∈ db.shared_equipment_reservation, cellEq mr "com_id" c = true ∧
          ∃ nm, r = resvRow "eq_no" "eq_name" mr nm)
    ∧ (∀ db n c, ∀ r ∈ query_employee_contact_by_name db n c,
        ∃ src ∈ db.employee, cellEq src "com_id" c = true ∧
          r = selectCols ["emp_name", "email", "phone", "work_phone", "emp_id", "dep_no", "pos_no"] src)
    ∧ (∀ db c e out, get_employee_contact db c e = .ok out →
        ∀ r ∈ out, ∃ src ∈ db.employee, cellEq src "com_id" c = true ∧
          r = selectCols ["emp_name", "email", "phone", "work_phone", "emp_id", "dep_no", "pos_no"] src)
    ∧ (∀ db c kw lim out, search_board_posts db c kw lim = .ok out →
        ∀ r ∈ out, ∃ src ∈ db.board, cellEq src "com_id" c = true ∧
          r = selectCols ["board_no", "title", "created_at", "emp_id"] src)
    ∧ (∀ db c e lim out, get_approval_lines db c e lim = .ok out →
        ∀ r ∈ out, ∃ src ∈ db.approval_line, cellEq src "com_id" c = true ∧
          r = selectCols ["apprl_no", "doc_no", "appr_stat", "ended_at"] src)
    ∧ (∀ db e c u lim out, get_my_mails db e c u lim = .ok out →
        ∀ r ∈ out, ∃ src ∈ db.mail, cellEq src "sender_id" e = true ∧
          r = selectCols ["mail_no", "title", "created_at", "sender_id"] src) := by
  refine ⟨?_, ?_, ?_, ?_, ?_, ?_, ?_, ?_, ?_, ?_, ?_, ?_, ?_⟩
  · intro spec args c emp hne hcontains hnone
    simp only [injectTenant]
    have hcond : (spec.params.contains "com_id" && truthyOptStr (some c)) = true := by
      rw [hcontains, Bool.true_and]
      exact decide_eq_true hne
    rw [if_pos hcond]
    have hbase : (setdefault args "com_id" (Val.s ((some c).getD ""))).lookup "com_id" =
        some (.s c) := by
      rw [setdefault_lookup_same, hnone]
      rfl
    split
    · exact setdefault_lookup_pres hbase
    · exact hbase
  · intro spec args com e hne hcontains hnone
    simp only [injectTenant]
    have ha1 : (if (spec.params.contains "com_id" && truthyOptStr com) = true
        then setdefault args "com_id" (Val.s (com.getD "")) else args).lookup "emp_id" = none := by
      split
      · unfold setdefault
        cases hck : args.lookup "com_id" with
        | some u => exact hnone
        | none =>
          show (args ++ [("com_id", Val.s (com.getD ""))]).lookup "emp_id" = none
          rw [lookup_append_none _ hnone]
          simp [List.lookup, show (("emp_id" : String) == "com_id") = false from rfl]
      · exact hnone
    have hcond : (spec.params.contains "emp_id" && truthyOptStr (some e)) = true := by
      rw [hcontains, Bool.true_and]
      exact decide_eq_true hne
    rw [if_pos hcond, setdefault_lookup_same, ha1]
    rfl
  · intro db e c st lim out h r hr
    simp only [get_my_todos] at h
    obtain ⟨src, hsrc, hp, heq⟩ := mem_filter_limit_proj h r hr
    simp only [Bool.and_eq_true] at hp
    exact ⟨src, hsrc, hp.1.1, heq⟩
  · intro db e c start stop out h r hr
    simp only [get_my_attendance] at h
    obtain ⟨src, hsrc, hp, heq⟩ := mem_filter_limit_proj h r hr
    simp only [Bool.and_eq_true] at hp
    exact ⟨src, hsrc, hp.1.1.1, heq⟩
  · intro db e c start stop out h r hr
    simp only [get_meetings_for_me] at h
    have hrm := applyLimit_ok_sub h hr
    obtain ⟨pr, hpr, hproj⟩ := List.mem_map.mp hrm
    obtain ⟨hprj, hpred⟩ := List.mem_filter.mp hpr
    obtain ⟨m, hm, hpair⟩ := List.mem_flatMap.mp hprj
    obtain ⟨me, _, hpeq⟩ := List.mem_map.mp hpair
    subst hpeq
    simp only [Bool.and_eq_true] at hpred
    exact ⟨m, hm, hpred.1.1.1, hproj.symm⟩
  · intro db c lim out h r hr
    exact mem_reservationQuery h r hr
  · intro db c lim out h r hr
    exact mem_reservationQuery h r hr
  · intro db c lim out h r hr
    exact mem_reservationQuery h r hr
  · intro db n c r hr
    simp only [query_employee_contact_by_name] at hr
    obtain ⟨src, hsrcf, heq⟩ := List.mem_map.mp hr
    obtain ⟨hsrc, hp⟩ := List.mem_filter.mp hsrcf
    simp only [Bool.and_eq_true] at hp
    exact ⟨src, hsrc, hp.1, heq.symm⟩
  · intro db c e out h r hr
    simp only [get_employee_contact] at h
    have hout := (Except.ok.injEq _ _).mp h
    rw [← hout] at hr
    obtain ⟨src, hsrct, heq⟩ := List.mem_map.mp hr
    obtain ⟨hsrc, hp⟩ := List.mem_filter.mp (List.take_subset _ _ hsrct)
    simp only [Bool.and_eq_true] at hp
    exact ⟨src, hsrc, hp.1, heq.symm⟩
  · intro db c kw lim out h r hr
    simp only [search_board_posts] at h
    obtain ⟨src, hsrc, hp, heq⟩ := mem_filter_limit_proj h r hr
    simp only [Bool.and_eq_true] at hp
    exact ⟨src, hsrc, hp.1, heq⟩
  · intro db c e lim out h r hr
    simp only [get_approval_lines] at h
    obtain ⟨src, hsrc, hp, heq⟩ := mem_filter_sort_limit_proj h r hr
    simp only [Bool.and_eq_true] at hp
    exact ⟨src, hsrc, hp.1, heq⟩
  · intro db e c u lim out h r hr
    simp only [get_my_mails] at h
    obtain ⟨src, hsrc, hp, heq⟩ := mem_filter_limit_proj h r hr
    exact ⟨src, hsrc, hp, heq⟩

/-- Mail fixture: the only mail row belongs to company B. -/
def dbMailLeak : Database :=
  ⟨[], [[("com_id", .s "B"), ("mail_no", .i 1), ("title", .s "b-mail"),
        ("created_at", .s "2024-01-01"), ("sender_id", .s "e1")]],
   [], [], [], [], [], [], [], [], [], [], [], []⟩

/-- C2 counterexample: dispatched for tenant company A (with the executor
injecting com_id A and emp_id e1), get_my_mails returns the mail row
stored for company B; the tool's result is identical under company A and
company B because the statement filters only on the sender. -/
theorem get_my_mails_cross_tenant_cex :
    execute_rdb_tasks dbMailLeak (fun _ => none) [⟨"get_my_mails", []⟩] (some "A") (some "e1") =
      ([[("mail_no", .i 1), ("title", .s "b-mail"), ("created_at", .s "2024-01-01"),
         ("sender_id", .s "e1")]], ["get_my_mails: 1 rows"])
    ∧ cellV dbMailLeak.mail.headI "com_id" = .s "B"
    ∧ get_my_mails dbMailLeak (.s "e1") (.s "A") .null none =
        get_my_mails dbMailLeak (.s "e1") (.s "B") .null none :=
  ⟨rfl, rfl, rfl⟩

/-- Todo fixture: one todo row of company A, employee e1. -/
def dbScoped : Database :=
  ⟨[[("com_id", .s "A"), ("emp_id", .s "e1"), ("todo_no", .i 7), ("title", .s "t"),
     ("is_done", .s "N"), ("created_at", .s "d"), ("updated_at", .s "d")]],
   [], [], [], [], [], [], [], [], [], [], [], [], []⟩

/-- The projected todo row returned for the fixture. -/
def projTodoA : Row :=
  [("todo_no", .i 7), ("title", .s "t"), ("is_done", .s "N"),
   ("created_at", .s "d"), ("updated_at", .s "d")]

/-- Witness for C2 on the todo tool at a concrete database. -/
theorem tools_tenant_scoped_witness :
    ∃ src ∈ dbScoped.todo_list, cellEq src "com_id" (Val.s "A") = true ∧
      projTodoA = selectCols ["todo_no", "title", "is_done", "created_at", "updated_at"] src :=
  tools_tenant_scoped.2.2.1 dbScoped (.s "e1") (.s "A") .null none [projTodoA] rfl
    projTodoA (by simp)

/-! ### C1, C5, C6: the delivery traces of run_chatbot -/

/-- The terminal payload for a stream outcome: the done event on normal
completion, the error event for a raised exception. -/
def terminalOf (mid : String) : Option String → CallbackEvent
  | none => doneEvent mid
  | some e => errorEvent mid e

theorem deliverLoop_allok (p : Nat → Bool) (mid : String) (h : ∀ k, p k = true) :
    ∀ (cs : List String) (err : Option String) (k : Nat),
    deliverLoop p mid k cs err =
      (cs.map fun c => (chunkEvent mid c, true)) ++ [(terminalOf mid err, true)] := by
  intro cs
  induction cs with
  | nil =>
    intro err k
    cases err with
    | none => simp [deliverLoop, h k, terminalOf]
    | some e => simp [deliverLoop, h k, terminalOf]
  | cons c cs ih =>
    intro err k
    simp [deliverLoop, h k, ih err (k + 1)]

theorem delivered_append (l1 l2 : List (CallbackEvent × Bool)) :
    delivered (l1 ++ l2) = delivered l1 ++ delivered l2 := by
  simp [delivered, List.filterMap_append]

theorem delivered_map_true (f : String → CallbackEvent) (cs : List String) :
    delivered (cs.map fun c => (f c, true)) = cs.map f := by
  induction cs with
  | nil => rfl
  | cons a l ih => simp only [List.map_cons, delivered, List.filterMap_cons] at ih ⊢; simp [ih]

theorem delivered_allok (p : Nat → Bool) (mid : String) (h : ∀ k, p k = true)
    (cs : List String) (err : Option String) :
    delivered (deliverLoop p mid 0 cs err) = cs.map (chunkEvent mid) ++ [terminalOf mid err] := by
  rw [deliverLoop_allok p mid h cs err 0, delivered_append, delivered_map_true]
  simp [delivered]

/-- C1 amended: provided every delivery attempt succeeds, the delivered
events are exactly the emitted chunks in emission order - each a
done=false success=true chunk event - followed by the single terminal
done=true event; in particular exactly one done=true event is delivered,
it is strictly last, and every success=false event has done=true.  (When
delivery attempts themselves fail, the trailing best-effort error post can
fail too and no terminal event is delivered, which the counterexample
exercises.) -/
theorem run_chatbot_delivery_order (db : Database) (o : Oracles) (req : ChatbotRunRequest)
    (h : ∀ k, o.postOk k = true) :
    delivered (run_chatbot db o req) =
      (emission db o req).map (chunkEvent req.messageId) ++ [terminalEv db o req]
    ∧ (delivered (run_chatbot db o req)).countP (fun ev => ev.done) = 1
    ∧ (∀ ev ∈ delivered (run_chatbot db o req), ev.success = false → ev.done = true)
    ∧ (terminalEv db o req).done = true := by
  have hterm : terminalEv db o req = terminalOf req.messageId (streamOrRefusal db o req).2 := by
    unfold terminalEv terminalOf
    cases (streamOrRefusal db o req).2 <;> rfl
  have hmain : delivered (run_chatbot db o req) =
      (emission db o req).map (chunkEvent req.messageId) ++ [terminalEv db o req] := by
    rw [hterm]
    unfold run_chatbot emission
    exact delivered_allok o.postOk req.messageId h _ _
  refine ⟨hmain, ?_, ?_, ?_⟩
  · rw [hmain, List.countP_append]
    have h0 : ((emission db o req).map (chunkEvent req.messageId)).countP
        (fun ev => ev.done) = 0 := by
      rw [List.countP_eq_zero]
      intro a ha
      obtain ⟨c, _, hc⟩ := List.mem_map.mp ha
      rw [← hc]
      simp [chunkEvent]
    rw [h0, hterm]
    cases (streamOrRefusal db o req).2 <;>
      simp [terminalOf, doneEvent, errorEvent, List.countP_cons]
  · intro ev hev hfalse
    rw [hmain] at hev
    rcases List.mem_append.mp hev with hin | hin
    · obtain ⟨c, _, hc⟩ := List.mem_map.mp hin
      rw [← hc] at hfalse
      simp [chunkEvent] at hfalse
    · rw [List.mem_singleton.mp hin, hterm]
      cases (streamOrRefusal db o req).2 <;> simp [terminalOf, doneEvent, errorEvent]
  · rw [hterm]
    cases (streamOrRefusal db o req).2 <;> rfl

/-- The shared concrete request of the end-to-end fixtures. -/
def reqW : ChatbotRunRequest := ⟨"질문", [], "e1", "A", "m1"⟩

/-- An empty relational snapshot. -/
def dbEmpty : Database := ⟨[], [], [], [], [], [], [], [], [], [], [], [], [], []⟩

/-- C1 witness scenario: planner raises (default rag plan), retrieval
returns one passage, synthesis streams one chunk, all posts succeed. -/
def oC1w : Oracles :=
  ⟨.raises "timeout", fun _ => none, fun _ => none, .error "down",
   fun _ _ => .ok ["passage"], .streams ["hello"], fun _ => true⟩

/-- Witness for C1 on the one-chunk streaming scenario. -/
theorem run_chatbot_delivery_order_witness :
    delivered (run_chatbot dbEmpty oC1w reqW) = [chunkEvent "m1" "hello", doneEvent "m1"] :=
  (run_chatbot_delivery_order dbEmpty oC1w reqW (fun _ => rfl)).1.trans rfl

/-- C1 counterexample scenario: evidence exhausts (refusal path) and the
callback endpoint rejects every post. -/
def oC1cex : Oracles :=
  ⟨.raises "timeout", fun _ => none, fun _ => none, .error "down",
   fun _ _ => .error "down", .streams [], fun _ => false⟩

/-- C1 counterexample: with post_with_retry raising on every attempt (a
permanent delivery failure, which the modelled delivery contract allows),
the refusal post fails, the best-effort error post fails too, and zero
done=true events are delivered - not exactly one. -/
theorem run_chatbot_no_terminal_cex :
    delivered (run_chatbot dbEmpty oC1cex reqW) = []
    ∧ ¬ (delivered (run_chatbot dbEmpty oC1cex reqW)).countP (fun ev => ev.done) = 1 :=
  ⟨rfl, by decide⟩

/-- C5 amended: when both evidence texts are empty after gathering and
fallbacks, synthesis is skipped and - provided the two delivery attempts
succeed - exactly the two claimed events are delivered: the fixed refusal
chunk with done=false success=true, then the terminal done=true
success=true event. -/
theorem run_chatbot_refusal (db : Database) (o : Oracles) (req : ChatbotRunRequest)
    (hempty : gatherTexts db o req = ("", ""))
    (h0 : o.postOk 0 = true) (h1 : o.postOk 1 = true) :
    delivered (run_chatbot db o req) =
      [⟨req.messageId, some refusalMsg, false, true, none⟩,
       ⟨req.messageId, none, true, true, none⟩] := by
  have hst : streamOrRefusal db o req = ([refusalMsg], none) := by
    simp only [streamOrRefusal]
    rw [hempty]
    simp
  unfold run_chatbot
  rw [hst]
  have hloop : deliverLoop o.postOk req.messageId 0 [refusalMsg] none =
      [(chunkEvent req.messageId refusalMsg, true), (doneEvent req.messageId, true)] := by
    simp [deliverLoop, h0, h1]
  rw [hloop]
  rfl

/-- C5 witness scenario: planner raises, retrieval fails, so both evidence
texts are empty; both posts succeed. -/
def oC5w : Oracles :=
  ⟨.raises "boom", fun _ => none, fun _ => none, .error "down",
   fun _ _ => .error "down", .streams [], fun _ => true⟩

/-- Witness for C5 on the evidence-exhaustion scenario. -/
theorem run_chatbot_refusal_witness :
    delivered (run_chatbot dbEmpty oC5w reqW) =
      [⟨"m1", some refusalMsg, false, true, none⟩, ⟨"m1", none, true, true, none⟩] :=
  run_chatbot_refusal dbEmpty oC5w reqW rfl rfl rfl

/-- C5 counterexample scenario: the refusal-path first post fails, the
best-effort error post succeeds. -/
def oC5cex : Oracles :=
  ⟨.raises "boom", fun _ => none, fun _ => none, .error "down",
   fun _ _ => .error "down", .streams [], fun k => k != 0⟩

/-- C5 counterexample: when the refusal-chunk post raises, the delivered
trace is the single best-effort terminal error event - one delivery, not
the claimed two, and neither of the two claimed events. -/
theorem run_chatbot_refusal_cex :
    delivered (run_chatbot dbEmpty oC5cex reqW) = [errorEvent "m1" postFailMsg]
    ∧ ¬ (delivered (run_chatbot dbEmpty oC5cex reqW)).length = 2 :=
  ⟨rfl, by decide⟩

/-- C6 amended: an exception raised mid-stream (after some chunks were
already yielded and delivered) is caught inside the synthesizer, which
then takes the non-streaming fallback: on a successful fallback the
re-chunked full response is delivered after the earlier chunks and the
request ends with the terminal success event; only when the fallback call
itself also raises does the orchestrator reach FAILED, delivering the
terminal success=false event with the non-null errorMessage and no
further chunk events. -/
theorem synth_midstream_fallback (db : Database) (o : Oracles) (req : ChatbotRunRequest)
    (pre : List String)
    (hne : ¬ ((gatherTexts db o req).1 = "" ∧ (gatherTexts db o req).2 = ""))
    (hok : ∀ k, o.postOk k = true) :
    (∀ full, o.synth = .streamsThenRaises pre (.ok full) →
      delivered (run_chatbot db o req) =
        ((pre.filter (· ≠ "") ++ paragraphChunks full).map (chunkEvent req.messageId)) ++
          [doneEvent req.messageId])
    ∧ (∀ e, o.synth = .streamsThenRaises pre (.error e) →
      delivered (run_chatbot db o req) =
        ((pre.filter (· ≠ "")).map (chunkEvent req.messageId)) ++ [errorEvent req.messageId e]
      ∧ (errorEvent req.messageId e).success = false
      ∧ (errorEvent req.messageId e).errorMessage = some e) := by
  have hst : streamOrRefusal db o req = stream_final_answer o.synth := by
    simp only [streamOrRefusal]
    rw [if_neg hne]
  constructor
  · intro full hsynth
    unfold run_chatbot
    rw [hst, hsynth]
    have hd := delivered_allok o.postOk req.messageId hok
      (pre.filter (· ≠ "") ++ paragraphChunks full) none
    simpa [stream_final_answer, terminalOf] using hd
  · intro e hsynth
    refine ⟨?_, rfl, rfl⟩
    unfold run_chatbot
    rw [hst, hsynth]
    have hd := delivered_allok o.postOk req.messageId hok (pre.filter (· ≠ "")) (some e)
    simpa [stream_final_answer, terminalOf] using hd

/-- C6 witness scenario: one passage grounds the request, the stream
raises after two chunks and the fallback call raises as well. -/
def oC6w : Oracles :=
  ⟨.raises "x", fun _ => none, fun _ => none, .error "d",
   fun _ _ => .ok ["ctx"], .streamsThenRaises ["c1", "c2"] (.error "boom"), fun _ => true⟩

/-- Witness for C6: double failure delivers the two chunks then the
terminal error event. -/
theorem synth_midstream_fallback_witness :
    delivered (run_chatbot dbEmpty oC6w reqW) =
      ((["c1", "c2"].filter (· ≠ "")).map (chunkEvent "m1")) ++ [errorEvent "m1" "boom"] :=
  ((synth_midstream_fallback dbEmpty oC6w reqW ["c1", "c2"] (by decide) (fun _ => rfl)).2
    "boom" rfl).1

/-- C6 counterexample scenario: the stream raises after two chunks but the
non-streaming fallback succeeds with a one-paragraph answer. -/
def oC6cex : Oracles :=
  ⟨.raises "x", fun _ => none, fun _ => none, .error "d",
   fun _ _ => .ok ["ctx"], .streamsThenRaises ["c1", "c2"] (.ok "recovered"), fun _ => true⟩

/-- C6 counterexample: after a mid-stream exception the fallback is taken
(further chunk events follow the two already delivered) and the request
ends with the terminal success event - no FAILED transition, no
success=false terminal, contrary to the claim. -/
theorem synth_midstream_cex :
    delivered (run_chatbot dbEmpty oC6cex reqW) =
      [chunkEvent "m1" "c1", chunkEvent "m1" "c2", chunkEvent "m1" "recovered\n", doneEvent "m1"]
    ∧ ∀ ev ∈ delivered (run_chatbot dbEmpty oC6cex reqW), ev.success = true :=
  ⟨rfl, by decide⟩

end MlpApproval
